import Mathlib

/-!
Verification of the groveai client-side image analysis flow.

Shallow embedding of `src/components/image-upload-analyzer.tsx`, which contains
two near-duplicate React components:

* `ImageUploadAnalyzer` (the "analyzer" widget): `resizeImage`, `validateFile`,
  `analyzeImage`, `processFile`, `handleDrop`, `reset`, error dismissal;
* `Grove` (the landing page): `resizeAndCompressImage`, `validateImage`,
  `analyzeImageWithAPI`, `handleImageUpload`, `handleDragDrop`, the inline
  upload-area `onDrop` handler, `handleDemoImage`, `resetAnalysis`.

Image dimensions and JS numbers are modelled as rationals (`ℚ`); JSON bodies as
an inductive `Json` type; the network as an explicit outcome datatype fed to the
pure state-transition functions; React `useState` state as explicit records.
-/

/-- A JSON value, as produced by `response.json()`. -/
inductive Json where
  | null : Json
  | bool : Bool → Json
  | num : ℚ → Json
  | str : String → Json
  | arr : List Json → Json
  | obj : List (String × Json) → Json

/-- JS truthiness of a JSON value (`0`, `""`, `false`, `null` are falsy;
objects and arrays are truthy). -/
def Json.truthy : Json → Bool
  | Json.null => false
  | Json.bool b => b
  | Json.num q => decide (q ≠ 0)
  | Json.str s => decide (s ≠ "")
  | Json.arr _ => true
  | Json.obj _ => true

/-- Whether a JSON value is the JSON literal `null`. Reading a property of a
`null` value throws a `TypeError` in JS, unlike reading one of any other
non-object value, which merely yields `undefined`. -/
def Json.isNull : Json → Bool
  | Json.null => true
  | _ => false

/-- Field lookup in a JSON object field list; on duplicate keys the last entry
wins, mirroring `JSON.parse`. -/
def jsonLookup (fields : List (String × Json)) (key : String) : Option Json :=
  match fields with
  | [] => none
  | (k, v) :: rest =>
    match jsonLookup rest key with
    | some r => some r
    | none => if k = key then some v else none

/-- JS property access `data.key`: `none` models `undefined` (missing field or
access on a non-object). -/
def jsonField : Json → String → Option Json
  | Json.obj fields, key => jsonLookup fields key
  | _, _ => none

/-- Truthiness of a possibly-`undefined` JS value. -/
def truthyOpt : Option Json → Bool
  | none => false
  | some j => j.truthy

/-- `typeof v === "number"` for a possibly-`undefined` JS value. -/
def isNumberOpt : Option Json → Bool
  | some (Json.num _) => true
  | _ => false

/-- The numeric payload of a JS value known to be a number (0 otherwise). -/
def numOf : Option Json → ℚ
  | some (Json.num q) => q
  | _ => 0

/-- An uploaded `File`: its metadata plus the intrinsic pixel dimensions the
browser decodes from it (`img.width`/`img.height` after `img.onload`). -/
structure File where
  name : String
  type : String
  size : ℕ
  width : ℚ
  height : ℚ

/-- The blob produced by `canvas.toBlob`: the canvas dimensions it encodes, its
MIME type and the quality argument. -/
structure Blob where
  width : ℚ
  height : ℚ
  mime : String
  quality : ℚ
deriving DecidableEq

/-- Dimension calculation of the analyzer widget's `resizeImage`
(`image-upload-analyzer.tsx` lines 44-56): scale the longer side down to
`maxDimension` when it exceeds it. -/
def resizeImageDims (maxDimension w h : ℚ) : ℚ × ℚ :=
  if w > h then
    if w > maxDimension then (maxDimension, h * maxDimension / w) else (w, h)
  else
    if h > maxDimension then (w * maxDimension / h, maxDimension) else (w, h)

/-- Dimension calculation of the landing page's `resizeAndCompressImage`
(lines 521-527): only the width is compared against `maxWidth = 512`. -/
def resizeAndCompressDims (w h : ℚ) : ℚ × ℚ :=
  if w > 512 then (512, h * 512 / w) else (w, h)

/-- The analyzer widget's `resizeImage` as a blob description: resized
dimensions, encoded `"image/jpeg"` at quality `0.9` (line 74-75). -/
def resizeImage (w h maxDimension : ℚ) : Blob :=
  { width := (resizeImageDims maxDimension w h).1
    height := (resizeImageDims maxDimension w h).2
    mime := "image/jpeg"
    quality := 9/10 }

/-- The landing page's `resizeAndCompressImage` as a blob description: width
capped at 512, encoded `"image/jpeg"` at quality `0.8` (lines 545-546). -/
def resizeAndCompressImage (w h : ℚ) : Blob :=
  { width := (resizeAndCompressDims w h).1
    height := (resizeAndCompressDims w h).2
    mime := "image/jpeg"
    quality := 8/10 }

/-- MIME types accepted by both validators (line 91 and line 492). -/
def validMimeTypes : List String :=
  ["image/jpeg", "image/jpg", "image/png", "image/webp"]

def typeErrorMessage : String :=
  "Please upload a valid image file (JPEG, PNG, or WebP)"

def sizeErrorMessage : String :=
  "Image file is too large. Please upload an image smaller than 10MB"

/-- Return value of a validator together with the error message it passes to
`setError` (if any). -/
structure ValidationResult where
  ok : Bool
  error : Option String
deriving DecidableEq

/-- The analyzer widget's `validateFile` (lines 90-105): type check first,
then the `size > 10 * 1024 * 1024` check. -/
def validateFile (f : File) : ValidationResult :=
  if f.type ∈ validMimeTypes then
    if f.size > 10 * 1024 * 1024 then { ok := false, error := some sizeErrorMessage }
    else { ok := true, error := none }
  else { ok := false, error := some typeErrorMessage }

/-- The landing page's `validateImage` (lines 491-506), a verbatim duplicate of
`validateFile`. -/
def validateImage (f : File) : ValidationResult :=
  if f.type ∈ validMimeTypes then
    if f.size > 10 * 1024 * 1024 then { ok := false, error := some sizeErrorMessage }
    else { ok := true, error := none }
  else { ok := false, error := some typeErrorMessage }

/-- The underscore-collapsing pass of `disease.replace(/_+/g, " ")`: each
maximal run of underscores becomes a single space. `inRun` records whether the
previous character was part of an underscore run already replaced. -/
def collapseUnderscoresAux : Bool → List Char → List Char
  | _, [] => []
  | inRun, c :: rest =>
    if c = '_' then
      if inRun then collapseUnderscoresAux true rest
      else ' ' :: collapseUnderscoresAux true rest
    else c :: collapseUnderscoresAux false rest

/-- JS whitespace for `String.prototype.trim` (the characters relevant here). -/
def isJsWhitespace (c : Char) : Bool :=
  c = ' ' || c = '\t' || c = '\n' || c = '\r'

/-- Model of JS `s.trim()` on a character list: drop leading and trailing whitespace. -/
def jsTrim (l : List Char) : List Char :=
  ((l.dropWhile isJsWhitespace).reverse.dropWhile isJsWhitespace).reverse

/-- The transformation `data.disease.replace(/_+/g, " ").trim()` (line 138 and line 594). -/
def renderDisease (s : String) : String :=
  String.mk (jsTrim (collapseUnderscoresAux false s.data))

/-- Model of JS `s.startsWith(pre)` over the character lists. -/
def jsStartsWith (s pre : String) : Bool :=
  pre.data.isPrefixOf s.data

/-- The UI result object `{disease, confidence, description}`. The description
is kept as the raw JS value stored by the component. -/
structure AnalysisResult where
  disease : String
  confidence : ℚ
  description : Json

/-- Model of `data.description || ""` (line 140). -/
def descOrEmpty (o : Option Json) : Json :=
  match o with
  | some v => if v.truthy then v else Json.str ""
  | none => Json.str ""

/-- Whether `response.ok` holds, per the fetch specification: status 200-299. -/
def responseOk (status : ℕ) : Bool :=
  decide (200 ≤ status ∧ status < 300)

/-- Status-to-message mapping of the analyzer widget's `analyzeImage`
(lines 122-132), reached only when `!response.ok`. -/
def analyzerHttpErrorMessage (status : ℕ) : String :=
  if status = 404 then "The analysis service is temporarily unavailable."
  else if status = 500 then "Server error occurred. Please try again in a few moments."
  else if 400 ≤ status ∧ status < 500 then "Invalid request. Please check your image and try again."
  else "Request failed with status " ++ toString status

/-- Status-to-message mapping of the landing page's `analyzeImageWithAPI`
(lines 578-588), reached only when `!response.ok`. -/
def groveHttpErrorMessage (status : ℕ) : String :=
  if status = 404 then "The service may be temporarily unavailable."
  else if status = 500 then "Server error occurred. Please try again in a few moments."
  else if 400 ≤ status ∧ status < 500 then "Invalid request. Please check your image format and try again."
  else "API request failed with status " ++ toString status

def connectionErrorMessage : String :=
  "Unable to connect to the analysis service. Please check your internet connection and try again."

def genericFailureMessage : String :=
  "Analysis failed. Please try again with a different image."

def invalidFormatMessage : String :=
  "Invalid response format from API"

/-- Message of the `TypeError` the JS runtime raises when `.replace` is invoked
on a truthy non-string `data.disease`; the exact text is engine dependent and
modelled abstractly by this constant. -/
def diseaseReplaceTypeError : String :=
  "data.disease.replace is not a function"

/-- Message of the `TypeError` the JS runtime raises when `data.disease` is
read from a `null` body (line 136 and line 592); the exact text is engine
dependent and modelled abstractly by this constant. -/
def nullAccessTypeError : String :=
  "Cannot read properties of null"

/-- Result of `response.json()`: either the promise rejects (a `SyntaxError`,
whose message lands in the `catch` block) or a parsed JSON value. -/
inductive BodyResult where
  | parseFail : String → BodyResult
  | parsed : Json → BodyResult

/-- How the `fetch`/`json` part of an analyze run settles: the connection-level
`TypeError("Failed to fetch")`, some other rejection carrying an `Error` with a
message, a thrown non-`Error` value, or an HTTP response. -/
inductive ApiOutcome where
  | netFail : ApiOutcome
  | otherError : String → ApiOutcome
  | nonErrorThrow : ApiOutcome
  | response : ℕ → BodyResult → ApiOutcome

/-- How a canvas resize promise settles: rejection with an `Error` message
("Could not get canvas context", "Failed to load image", ...) or success. -/
inductive ResizeOutcome where
  | fail : String → ResizeOutcome
  | ok : ResizeOutcome

/-- The `useState` fields of the `ImageUploadAnalyzer` component (lines 21-27). -/
structure AnalyzerState where
  selectedFile : Option File
  previewUrl : Option String
  resizedImageUrl : Option String
  isAnalyzing : Bool
  result : Option AnalysisResult
  error : Option String
  isDragActive : Bool

/-- Initial analyzer component state. -/
def analyzerStart : AnalyzerState :=
  { selectedFile := none, previewUrl := none, resizedImageUrl := none
    isAnalyzing := false, result := none, error := none, isDragActive := false }

/-- The state updates at the top of `analyzeImage` (lines 109-111). -/
def analyzerAnalyzeEntry (s : AnalyzerState) : AnalyzerState :=
  { s with isAnalyzing := true, error := none, result := none }

/-- The result object the analyzer stores on a successful parse (lines 137-141):
collapsed and trimmed disease name, confidence scaled by 100, and
`data.description || ""`. -/
def analyzerResultOf (j : Json) (d : String) : AnalysisResult :=
  { disease := renderDisease d
    confidence := numOf (jsonField j "confidence") * 100
    description := descOrEmpty (jsonField j "description") }

/-- Applying `.replace` to the checked `data.disease` value (line 138): a string
yields the stored result; a truthy non-string raises a `TypeError` that the
`catch` turns into an error message. -/
def analyzerApplyDisease (s : AnalyzerState) (j : Json) : Option Json → AnalyzerState
  | some (Json.str d) => { s with result := some (analyzerResultOf j d) }
  | _ => { s with error := some diseaseReplaceTypeError }

/-- Handling of a parsed JSON body in `analyzeImage` (lines 136-144): reading
`data.disease` from a `null` body throws a `TypeError` that the `catch` stores;
otherwise the truthiness/typeof check runs, then `.replace` on the disease
value. -/
def analyzerHandleParsed (s : AnalyzerState) (j : Json) : AnalyzerState :=
  if j.isNull then { s with error := some nullAccessTypeError }
  else if truthyOpt (jsonField j "disease") && isNumberOpt (jsonField j "confidence") then
    analyzerApplyDisease s j (jsonField j "disease")
  else { s with error := some invalidFormatMessage }

/-- Handling of `await response.json()` in `analyzeImage` (line 134): a
rejected parse lands in the `catch` with its message. -/
def analyzerHandleBody (s : AnalyzerState) (body : BodyResult) : AnalyzerState :=
  match body with
  | BodyResult.parseFail m => { s with error := some m }
  | BodyResult.parsed j => analyzerHandleParsed s j

/-- Handling of an HTTP response in `analyzeImage` (lines 122-144): the
`!response.ok` status mapping (whose thrown messages land in the `catch`),
otherwise the body handling. -/
def analyzerHandleResponse (s : AnalyzerState) (status : ℕ) (body : BodyResult) :
    AnalyzerState :=
  if responseOk status then analyzerHandleBody s body
  else { s with error := some (analyzerHttpErrorMessage status) }

/-- The `try`/`catch` body of `analyzeImage` (lines 113-154) applied to the
post-entry state, for a given settlement of the fetch. -/
def analyzerAnalyzeBody (s : AnalyzerState) (o : ApiOutcome) : AnalyzerState :=
  match o with
  | ApiOutcome.netFail => { s with error := some connectionErrorMessage }
  | ApiOutcome.otherError m => { s with error := some m }
  | ApiOutcome.nonErrorThrow => { s with error := some genericFailureMessage }
  | ApiOutcome.response status body => analyzerHandleResponse s status body

/-- The analyzer widget's `analyzeImage` (lines 108-158): entry updates, the
`try`/`catch` body, then the `finally` clearing `isAnalyzing`. -/
def analyzerAnalyze (s : AnalyzerState) (o : ApiOutcome) : AnalyzerState :=
  { analyzerAnalyzeBody (analyzerAnalyzeEntry s) o with isAnalyzing := false }

/-- The two views of the `Grove` landing page (`currentView`, line 459). -/
inductive View where
  | home : View
  | analysis : View
deriving DecidableEq

/-- The `useState` fields of the `Grove` component (lines 453-460). -/
structure GroveState where
  uploadedImage : Option String
  isAnalyzing : Bool
  result : Option AnalysisResult
  isDemoMode : Bool
  expandedFaq : Option ℕ
  mobileMenuOpen : Bool
  currentView : View
  error : Option String

/-- Initial landing-page component state. -/
def groveStart : GroveState :=
  { uploadedImage := none, isAnalyzing := false, result := none
    isDemoMode := false, expandedFaq := none, mobileMenuOpen := false
    currentView := View.home, error := none }

/-- The result object the landing page stores on a successful parse
(lines 593-597): same disease/confidence transformation, raw description. -/
def groveResultOf (j : Json) (d : String) : AnalysisResult :=
  { disease := renderDisease d
    confidence := numOf (jsonField j "confidence") * 100
    description := (jsonField j "description").getD Json.null }

/-- The state updates at the top of `analyzeImageWithAPI` (lines 561-564). -/
def groveAnalyzeEntry (s : GroveState) : GroveState :=
  { s with isAnalyzing := true, result := none, error := none
           currentView := View.analysis }

/-- Applying `.replace` to the checked `data.disease` value in the landing page
(line 594); a `TypeError` on a truthy non-string lands in the `catch`, which
also navigates home. -/
def groveApplyDisease (s : GroveState) (j : Json) : Option Json → GroveState
  | some (Json.str d) => { s with result := some (groveResultOf j d) }
  | _ => { s with error := some diseaseReplaceTypeError, currentView := View.home }

/-- Handling of a parsed JSON body in `analyzeImageWithAPI` (lines 592-599):
reading `data.disease` from a `null` body throws a `TypeError` that the `catch`
stores; otherwise the landing page checks truthiness/typeof, additionally
requiring a truthy `data.description`; every `catch` path also navigates back
to the home view (line 612). -/
def groveHandleParsed (s : GroveState) (j : Json) : GroveState :=
  if j.isNull then
    { s with error := some nullAccessTypeError, currentView := View.home }
  else if truthyOpt (jsonField j "disease") && isNumberOpt (jsonField j "confidence")
      && truthyOpt (jsonField j "description") then
    groveApplyDisease s j (jsonField j "disease")
  else { s with error := some invalidFormatMessage, currentView := View.home }

/-- Handling of `await response.json()` in `analyzeImageWithAPI` (line 590). -/
def groveHandleBody (s : GroveState) (body : BodyResult) : GroveState :=
  match body with
  | BodyResult.parseFail m => { s with error := some m, currentView := View.home }
  | BodyResult.parsed j => groveHandleParsed s j

/-- Handling of an HTTP response in `analyzeImageWithAPI` (lines 578-599). -/
def groveHandleResponse (s : GroveState) (status : ℕ) (body : BodyResult) : GroveState :=
  if responseOk status then groveHandleBody s body
  else { s with error := some (groveHttpErrorMessage status), currentView := View.home }

/-- Handling of the fetch settlement in `analyzeImageWithAPI`. -/
def groveHandleApi (s : GroveState) (o : ApiOutcome) : GroveState :=
  match o with
  | ApiOutcome.netFail =>
    { s with error := some connectionErrorMessage, currentView := View.home }
  | ApiOutcome.otherError m => { s with error := some m, currentView := View.home }
  | ApiOutcome.nonErrorThrow =>
    { s with error := some genericFailureMessage, currentView := View.home }
  | ApiOutcome.response status body => groveHandleResponse s status body

/-- The `try`/`catch` body of `analyzeImageWithAPI` (lines 566-612) applied to
the post-entry state: first the awaited `resizeAndCompressImage`, then the
fetch. -/
def groveAnalyzeBody (s : GroveState) (ro : ResizeOutcome) (o : ApiOutcome) : GroveState :=
  match ro with
  | ResizeOutcome.fail m => { s with error := some m, currentView := View.home }
  | ResizeOutcome.ok => groveHandleApi s o

/-- The landing page's `analyzeImageWithAPI` (lines 560-616): entry updates,
`try`/`catch` body, then the `finally` clearing `isAnalyzing`. -/
def groveAnalyze (s : GroveState) (ro : ResizeOutcome) (o : ApiOutcome) : GroveState :=
  { groveAnalyzeBody (groveAnalyzeEntry s) ro o with isAnalyzing := false }

/-- Abstraction of `URL.createObjectURL(file)` (line 172). -/
def objectURL (f : File) : String := "blob:" ++ f.name

/-- Abstraction of `URL.createObjectURL(resizedBlob)` (line 180). -/
def blobURL (_b : Blob) : String := "blob:resized"

/-- Abstraction of `FileReader.readAsDataURL(file)` (lines 627-632). -/
def dataURL (f : File) : String := "data:" ++ f.name

/-- The analyzer widget's `processFile` (lines 161-191): clear the error,
validate, record the file and preview, resize, then analyze; a rejection of the
resize promise is caught and stored as the error. -/
def processFile (s : AnalyzerState) (f : File) (ro : ResizeOutcome) (ao : ApiOutcome) :
    AnalyzerState :=
  let s0 := { s with error := none }
  let v := validateFile f
  if v.ok then
    let s1 := { s0 with selectedFile := some f, previewUrl := some (objectURL f) }
    match ro with
    | ResizeOutcome.fail m => { s1 with error := some m }
    | ResizeOutcome.ok =>
      let s2 := { s1 with
        resizedImageUrl := some (blobURL (resizeImage f.width f.height 512)) }
      analyzerAnalyze s2 ao
  else { s0 with error := v.error }

/-- The analyzer widget's `handleDrop` (lines 230-245): deactivate the drag
highlight, then process the first dropped file when its MIME type starts with
`"image/"`; otherwise do nothing further. -/
def handleDrop (s : AnalyzerState) (files : List File) (ro : ResizeOutcome)
    (ao : ApiOutcome) : AnalyzerState :=
  let s0 := { s with isDragActive := false }
  match files with
  | [] => s0
  | f :: _ =>
    if jsStartsWith f.type "image/" then processFile s0 f ro ao else s0

/-- The landing page's `handleDragDrop` (lines 636-649), a verbatim duplicate
of the body of `handleImageUpload`. -/
def handleDragDrop (s : GroveState) (f : File) (ro : ResizeOutcome)
    (ao : ApiOutcome) : GroveState :=
  let s0 := { s with error := none }
  let v := validateImage f
  if v.ok then
    let s1 := { s0 with uploadedImage := some (dataURL f) }
    groveAnalyze s1 ro ao
  else { s0 with error := v.error }

/-- The landing page upload area's inline `onDrop` handler (lines 974-980):
take the first dropped file and forward it to `handleDragDrop` only when its
MIME type starts with `"image/"`. -/
def groveOnDrop (s : GroveState) (files : List File) (ro : ResizeOutcome)
    (ao : ApiOutcome) : GroveState :=
  match files with
  | [] => s
  | f :: _ =>
    if jsStartsWith f.type "image/" then handleDragDrop s f ro ao else s

/-- The multipart/form-data POST built by both analyze functions: a single
form field `"file"` holding the blob under filename `"image.jpg"`. -/
structure ApiRequest where
  url : String
  method : String
  fieldName : String
  fileName : String
  payload : Blob
deriving DecidableEq

/-- The request of the analyzer widget's `analyzeImage` (lines 114-120). -/
def analyzerRequest (b : Blob) : ApiRequest :=
  { url := "https://grove-ai-5.onrender.com/predict", method := "POST"
    fieldName := "file", fileName := "image.jpg", payload := b }

/-- The request of the landing page's `analyzeImageWithAPI` (lines 570-576). -/
def groveRequest (b : Blob) : ApiRequest :=
  { url := "https://grove-ai-6.onrender.com/predict", method := "POST"
    fieldName := "file", fileName := "image.jpg", payload := b }

/-- The request `processFile`/`analyzeImage` sends for a given upload, if any:
only after validation passes and the resize promise resolves, and then it
carries the resized blob, never the original file. -/
def processFileRequest (f : File) (ro : ResizeOutcome) : Option ApiRequest :=
  if (validateFile f).ok then
    match ro with
    | ResizeOutcome.fail _ => none
    | ResizeOutcome.ok => some (analyzerRequest (resizeImage f.width f.height 512))
  else none

/-- The request `analyzeImageWithAPI` sends for a given upload, if any: only
after the resize promise resolves, carrying the compressed blob. -/
def groveAnalyzeRequest (f : File) (ro : ResizeOutcome) : Option ApiRequest :=
  match ro with
  | ResizeOutcome.fail _ => none
  | ResizeOutcome.ok => some (groveRequest (resizeAndCompressImage f.width f.height))

/-- Claim C3: both validators accept a file exactly when its MIME type is one
of image/jpeg, image/jpg, image/png, image/webp and its size is at most
10*1024*1024 bytes; an invalid type yields the type-error message (taking
precedence over the size check), a valid type with excessive size yields the
size-error message, a file of exactly 10 MB is accepted, and `validateImage`
coincides with `validateFile`. -/
theorem C3_validation (f : File) :
    ((validateFile f).ok = true ↔ f.type ∈ validMimeTypes ∧ f.size ≤ 10 * 1024 * 1024)
    ∧ (f.type ∉ validMimeTypes →
        validateFile f = { ok := false, error := some typeErrorMessage })
    ∧ (f.type ∈ validMimeTypes → 10 * 1024 * 1024 < f.size →
        validateFile f = { ok := false, error := some sizeErrorMessage })
    ∧ (f.type ∈ validMimeTypes → f.size = 10 * 1024 * 1024 → (validateFile f).ok = true)
    ∧ validateImage f = validateFile f := by
  refine ⟨⟨fun h => ?_, fun h => ?_⟩, fun h => ?_, fun h1 h2 => ?_, fun h1 h2 => ?_, rfl⟩
  · unfold validateFile at h
    split_ifs at h with h1 h2
    exact ⟨h1, by omega⟩
  · unfold validateFile
    rw [if_pos h.1, if_neg (by omega)]
  · unfold validateFile
    rw [if_neg h]
  · unfold validateFile
    rw [if_pos h1, if_pos (by omega)]
  · unfold validateFile
    rw [if_pos h1, if_neg (by omega)]

/-- Witness for C3 at a concrete 10 MB PNG file, which is accepted, and whose
validation result agrees between the two components. -/
theorem C3_witness :
    (validateFile (File.mk "leaf.png" "image/png" 10485760 64 64)).ok = true
    ∧ validateImage (File.mk "leaf.png" "image/png" 10485760 64 64)
        = validateFile (File.mk "leaf.png" "image/png" 10485760 64 64) :=
  ⟨(C3_validation (File.mk "leaf.png" "image/png" 10485760 64 64)).2.2.2.1
      (by decide) rfl,
   (C3_validation (File.mk "leaf.png" "image/png" 10485760 64 64)).2.2.2.2⟩

/-- Claim C8: both analyze operations set `isAnalyzing` at entry and the
`finally` clause resets it on every completion path (success, non-OK status,
network failure, parse failure, resize failure, non-Error throw), which the
outcome types enumerate exhaustively. -/
theorem C8_isAnalyzing_flag (s : AnalyzerState) (gs : GroveState) (o : ApiOutcome)
    (ro : ResizeOutcome) :
    (analyzerAnalyzeEntry s).isAnalyzing = true
    ∧ (analyzerAnalyze s o).isAnalyzing = false
    ∧ (groveAnalyzeEntry gs).isAnalyzing = true
    ∧ (groveAnalyze gs ro o).isAnalyzing = false :=
  ⟨rfl, rfl, rfl, rfl⟩

/-- Claim C10: both drop handlers process only the first file of a drop (the
handler's result does not depend on the remaining files), and a first file
whose MIME type does not start with `"image/"` is ignored without starting any
processing or setting any error: the analyzer only clears its drag highlight
and the landing page's state is unchanged. -/
theorem C10_drop_handlers (s : AnalyzerState) (gs : GroveState) (f : File)
    (rest rest2 : List File) (ro : ResizeOutcome) (ao : ApiOutcome) :
    handleDrop s (f :: rest) ro ao = handleDrop s (f :: rest2) ro ao
    ∧ (jsStartsWith f.type "image/" = false →
        handleDrop s (f :: rest) ro ao = { s with isDragActive := false })
    ∧ groveOnDrop gs (f :: rest) ro ao = groveOnDrop gs (f :: rest2) ro ao
    ∧ (jsStartsWith f.type "image/" = false → groveOnDrop gs (f :: rest) ro ao = gs) := by
  refine ⟨rfl, fun ht => ?_, rfl, fun ht => ?_⟩
  · simp only [handleDrop]
    rw [if_neg (by simp [ht])]
  · simp only [groveOnDrop]
    rw [if_neg (by simp [ht])]

/-- Witness for C10: dropping a single text file on either component leaves
every state field except the analyzer's drag highlight unchanged. -/
theorem C10_witness :
    handleDrop analyzerStart [File.mk "notes.txt" "text/plain" 5 10 10]
        ResizeOutcome.ok ApiOutcome.netFail
      = { analyzerStart with isDragActive := false }
    ∧ groveOnDrop groveStart [File.mk "notes.txt" "text/plain" 5 10 10]
        ResizeOutcome.ok ApiOutcome.netFail = groveStart :=
  ⟨(C10_drop_handlers analyzerStart groveStart (File.mk "notes.txt" "text/plain" 5 10 10)
      [] [] ResizeOutcome.ok ApiOutcome.netFail).2.1 (by decide),
   (C10_drop_handlers analyzerStart groveStart (File.mk "notes.txt" "text/plain" 5 10 10)
      [] [] ResizeOutcome.ok ApiOutcome.netFail).2.2.2 (by decide)⟩

/-- Counterexample for claim C7: the two components do not address the same
remote endpoint — the analyzer widget posts to grove-ai-5.onrender.com while
the landing page posts to grove-ai-6.onrender.com. -/
theorem C7_counterexample :
    (analyzerRequest (resizeImage 640 480 512)).url
      ≠ (groveRequest (resizeAndCompressImage 640 480)).url := by
  decide

/-- Claim C7 as amended: whenever a request is sent, each component sends the
blob produced by its own resize step (never the original file) as a POST whose
form data holds the blob under the single field name `"file"` with filename
`"image.jpg"`; but the two components address different endpoints
(grove-ai-5.onrender.com/predict versus grove-ai-6.onrender.com/predict). -/
theorem C7_amended (f : File) (ro : ResizeOutcome) (req reqG : ApiRequest) :
    (processFileRequest f ro = some req →
      req.method = "POST" ∧ req.fieldName = "file" ∧ req.fileName = "image.jpg"
        ∧ req.payload = resizeImage f.width f.height 512
        ∧ req.url = "https://grove-ai-5.onrender.com/predict")
    ∧ (groveAnalyzeRequest f ro = some reqG →
      reqG.method = "POST" ∧ reqG.fieldName = "file" ∧ reqG.fileName = "image.jpg"
        ∧ reqG.payload = resizeAndCompressImage f.width f.height
        ∧ reqG.url = "https://grove-ai-6.onrender.com/predict") := by
  constructor
  · intro h
    cases ro with
    | fail m =>
      by_cases hv : (validateFile f).ok = true <;>
        simp [processFileRequest, hv] at h
    | ok =>
      by_cases hv : (validateFile f).ok = true
      · simp only [processFileRequest, if_pos hv, Option.some.injEq] at h
        rw [← h]
        exact ⟨rfl, rfl, rfl, rfl, rfl⟩
      · simp [processFileRequest, hv] at h
  · intro h
    cases ro with
    | fail m => simp [groveAnalyzeRequest] at h
    | ok =>
      simp only [groveAnalyzeRequest, Option.some.injEq] at h
      rw [← h]
      exact ⟨rfl, rfl, rfl, rfl, rfl⟩

/-- Witness for C7 at a concrete valid JPEG upload: the analyzer sends its
resized blob to the grove-ai-5 endpoint. -/
theorem C7_witness :
    (analyzerRequest (resizeImage 640 480 512)).method = "POST"
    ∧ (analyzerRequest (resizeImage 640 480 512)).fieldName = "file"
    ∧ (analyzerRequest (resizeImage 640 480 512)).fileName = "image.jpg"
    ∧ (analyzerRequest (resizeImage 640 480 512)).payload
        = resizeImage (File.mk "leaf.jpg" "image/jpeg" 1000 640 480).width
            (File.mk "leaf.jpg" "image/jpeg" 1000 640 480).height 512
    ∧ (analyzerRequest (resizeImage 640 480 512)).url
        = "https://grove-ai-5.onrender.com/predict" :=
  (C7_amended (File.mk "leaf.jpg" "image/jpeg" 1000 640 480) ResizeOutcome.ok
      (analyzerRequest (resizeImage 640 480 512))
      (groveRequest (resizeAndCompressImage 640 480))).1 rfl

/-- Counterexample for claim C4: statuses 502 and 503 are both non-OK and fall
into the fourth branch of both status mappings, yet they yield different error
strings, so the fourth branch does not produce a single fixed message. -/
theorem C4_counterexample :
    responseOk 502 = false ∧ responseOk 503 = false
    ∧ ¬(400 ≤ 502 ∧ 502 < 500) ∧ ¬(400 ≤ 503 ∧ 503 < 500)
    ∧ analyzerHttpErrorMessage 502 ≠ analyzerHttpErrorMessage 503
    ∧ groveHttpErrorMessage 502 ≠ groveHttpErrorMessage 503 := by
  decide

/-- Claim C4 as amended: for every non-OK HTTP response both analyze operations
set no result and store the status-mapped message: status 404 yields the
service-unavailable message, status 500 the server-error message, any other
status in [400, 500) the invalid-request message — with 404 and 500 taking
precedence — and every other non-OK status yields a message of a fixed form
that embeds the numeric status code (so the fourth case is a fixed template
rather than one fixed string). -/
theorem C4_amended (st : AnalyzerState) (gs : GroveState) (status : ℕ)
    (b : BodyResult) (hnok : responseOk status = false) :
    (analyzerAnalyze st (ApiOutcome.response status b)).result = none
    ∧ (analyzerAnalyze st (ApiOutcome.response status b)).error
        = some (analyzerHttpErrorMessage status)
    ∧ (groveAnalyze gs ResizeOutcome.ok (ApiOutcome.response status b)).result = none
    ∧ (groveAnalyze gs ResizeOutcome.ok (ApiOutcome.response status b)).error
        = some (groveHttpErrorMessage status)
    ∧ analyzerHttpErrorMessage 404 = "The analysis service is temporarily unavailable."
    ∧ analyzerHttpErrorMessage 500
        = "Server error occurred. Please try again in a few moments."
    ∧ (status ≠ 404 → status ≠ 500 → 400 ≤ status → status < 500 →
        analyzerHttpErrorMessage status
          = "Invalid request. Please check your image and try again.")
    ∧ (status ≠ 404 → status ≠ 500 → ¬(400 ≤ status ∧ status < 500) →
        analyzerHttpErrorMessage status
          = "Request failed with status " ++ toString status)
    ∧ groveHttpErrorMessage 404 = "The service may be temporarily unavailable."
    ∧ groveHttpErrorMessage 500
        = "Server error occurred. Please try again in a few moments."
    ∧ (status ≠ 404 → status ≠ 500 → 400 ≤ status → status < 500 →
        groveHttpErrorMessage status
          = "Invalid request. Please check your image format and try again.")
    ∧ (status ≠ 404 → status ≠ 500 → ¬(400 ≤ status ∧ status < 500) →
        groveHttpErrorMessage status
          = "API request failed with status " ++ toString status) := by
  refine ⟨?_, ?_, ?_, ?_, rfl, rfl, fun h4 h5 hlo hhi => ?_, fun h4 h5 hmid => ?_,
    rfl, rfl, fun h4 h5 hlo hhi => ?_, fun h4 h5 hmid => ?_⟩
  · simp [analyzerAnalyze, analyzerAnalyzeBody, analyzerHandleResponse,
      analyzerAnalyzeEntry, hnok]
  · simp [analyzerAnalyze, analyzerAnalyzeBody, analyzerHandleResponse,
      analyzerAnalyzeEntry, hnok]
  · simp [groveAnalyze, groveAnalyzeBody, groveHandleApi, groveHandleResponse,
      groveAnalyzeEntry, hnok]
  · simp [groveAnalyze, groveAnalyzeBody, groveHandleApi, groveHandleResponse,
      groveAnalyzeEntry, hnok]
  · unfold analyzerHttpErrorMessage
    rw [if_neg h4, if_neg h5, if_pos ⟨hlo, hhi⟩]
  · unfold analyzerHttpErrorMessage
    rw [if_neg h4, if_neg h5, if_neg hmid]
  · unfold groveHttpErrorMessage
    rw [if_neg h4, if_neg h5, if_pos ⟨hlo, hhi⟩]
  · unfold groveHttpErrorMessage
    rw [if_neg h4, if_neg h5, if_neg hmid]

/-- Witness for C4 at the concrete status 418 (a generic 4xx) with an arbitrary
body: the analyzer stores the invalid-request message and no result. -/
theorem C4_witness :
    (analyzerAnalyze analyzerStart (ApiOutcome.response 418 (BodyResult.parsed Json.null))).result
      = none
    ∧ (analyzerAnalyze analyzerStart
          (ApiOutcome.response 418 (BodyResult.parsed Json.null))).error
        = some (analyzerHttpErrorMessage 418) :=
  ⟨(C4_amended analyzerStart groveStart 418 (BodyResult.parsed Json.null) rfl).1,
   (C4_amended analyzerStart groveStart 418 (BodyResult.parsed Json.null) rfl).2.1⟩

/-- Counterexample for claim C1: for a decoded 100x1000 image the landing
page's `resizeAndCompressImage` leaves the dimensions unchanged, so its output
height exceeds 512 pixels. -/
theorem C1_counterexample :
    (resizeAndCompressImage 100 1000).width = 100
    ∧ (resizeAndCompressImage 100 1000).height = 1000
    ∧ ¬ (resizeAndCompressImage 100 1000).height ≤ 512 := by
  norm_num [resizeAndCompressImage, resizeAndCompressDims]

/-- Claim C1 as amended: the analyzer widget's `resizeImage` caps both output
dimensions at 512, preserves the width-to-height ratio, and leaves an image
already within 512 pixels unchanged; the landing page's
`resizeAndCompressImage` caps only the output width at 512, preserves the
ratio, and leaves any image of width at most 512 unchanged — so its output
height may exceed 512 for portrait images. -/
theorem C1_amended (w h : ℚ) (hw : 0 < w) (hh : 0 < h) :
    ((resizeImageDims 512 w h).1 ≤ 512
      ∧ (resizeImageDims 512 w h).2 ≤ 512
      ∧ (resizeImageDims 512 w h).1 * h = (resizeImageDims 512 w h).2 * w
      ∧ (w ≤ 512 → h ≤ 512 → resizeImageDims 512 w h = (w, h)))
    ∧ ((resizeAndCompressDims w h).1 ≤ 512
      ∧ (resizeAndCompressDims w h).1 * h = (resizeAndCompressDims w h).2 * w
      ∧ (w ≤ 512 → resizeAndCompressDims w h = (w, h))) := by
  constructor
  · unfold resizeImageDims
    split_ifs with h1 h2 h3
    · refine ⟨by norm_num, ?_, ?_, fun hW _ => absurd h2 (by linarith)⟩
      · show h * 512 / w ≤ 512
        rw [div_le_iff₀ hw]
        nlinarith
      · show 512 * h = h * 512 / w * w
        rw [div_mul_cancel₀ _ (ne_of_gt hw)]
        ring
    · refine ⟨?_, ?_, ?_, fun _ _ => rfl⟩
      · show w ≤ 512
        linarith [not_lt.mp h2]
      · show h ≤ 512
        linarith [not_lt.mp h2]
      · show w * h = h * w
        ring
    · refine ⟨?_, by norm_num, ?_, fun _ hH => absurd h3 (by linarith)⟩
      · show w * 512 / h ≤ 512
        rw [div_le_iff₀ hh]
        nlinarith [not_lt.mp h1]
      · show w * 512 / h * h = 512 * w
        rw [div_mul_cancel₀ _ (ne_of_gt hh)]
        ring
    · refine ⟨?_, ?_, ?_, fun _ _ => rfl⟩
      · show w ≤ 512
        linarith [not_lt.mp h1, not_lt.mp h3]
      · show h ≤ 512
        linarith [not_lt.mp h3]
      · show w * h = h * w
        ring
  · unfold resizeAndCompressDims
    split_ifs with h1
    · refine ⟨by norm_num, ?_, fun hW => absurd h1 (by linarith)⟩
      show 512 * h = h * 512 / w * w
      rw [div_mul_cancel₀ _ (ne_of_gt hw)]
      ring
    · refine ⟨?_, ?_, fun _ => rfl⟩
      · show w ≤ 512
        linarith [not_lt.mp h1]
      · show w * h = h * w
        ring

/-- Witness for C1 at a concrete 1024x256 landscape image. -/
theorem C1_witness :
    ((resizeImageDims 512 1024 256).1 ≤ 512
      ∧ (resizeImageDims 512 1024 256).2 ≤ 512
      ∧ (resizeImageDims 512 1024 256).1 * 256 = (resizeImageDims 512 1024 256).2 * 1024
      ∧ ((1024 : ℚ) ≤ 512 → (256 : ℚ) ≤ 512 → resizeImageDims 512 1024 256 = (1024, 256)))
    ∧ ((resizeAndCompressDims 1024 256).1 ≤ 512
      ∧ (resizeAndCompressDims 1024 256).1 * 256 = (resizeAndCompressDims 1024 256).2 * 1024
      ∧ ((1024 : ℚ) ≤ 512 → resizeAndCompressDims 1024 256 = (1024, 256))) :=
  C1_amended 1024 256 (by norm_num) (by norm_num)

/-- Counterexample for claim C2: for a decoded 600x1200 portrait image the two
resize pipelines compute different output dimensions (256x512 versus 512x1024),
and their fixed JPEG quality settings differ (0.9 versus 0.8). -/
theorem C2_counterexample :
    resizeImageDims 512 600 1200 ≠ resizeAndCompressDims 600 1200
    ∧ (resizeImage 600 1200 512).quality ≠ (resizeAndCompressImage 600 1200).quality := by
  constructor
  · norm_num [resizeImageDims, resizeAndCompressDims, Prod.ext_iff]
  · norm_num [resizeImage, resizeAndCompressImage]

/-- Claim C2 as amended: the two pipelines re-encode as JPEG but at different
fixed qualities (0.9 in the analyzer widget, 0.8 in the landing page), and they
compute the same output dimensions exactly for images with width at least
height or with height at most 512 — for portrait images taller than 512 pixels
the outputs differ. -/
theorem C2_amended (w h : ℚ) (hw : 0 < w) (hh : 0 < h) :
    (resizeImageDims 512 w h = resizeAndCompressDims w h ↔ (h ≤ w ∨ h ≤ 512))
    ∧ (resizeImage w h 512).mime = (resizeAndCompressImage w h).mime
    ∧ (resizeImage w h 512).quality = 9/10
    ∧ (resizeAndCompressImage w h).quality = 8/10 := by
  refine ⟨?_, rfl, rfl, rfl⟩
  unfold resizeImageDims resizeAndCompressDims
  split_ifs with h1 h2 h3 h4 h5
  · exact ⟨fun _ => Or.inl (le_of_lt h1), fun _ => rfl⟩
  · exact ⟨fun _ => Or.inl (le_of_lt h1), fun _ => rfl⟩
  · constructor
    · intro hEq
      rw [Prod.mk.injEq] at hEq
      have e1 := hEq.1
      rw [div_eq_iff (ne_of_gt hh)] at e1
      have : w = h := by linarith
      exact Or.inl (le_of_eq this.symm)
    · intro hOr
      have hwh : w = h := by
        rcases hOr with hle | hle
        · linarith [not_lt.mp h1]
        · exact absurd hle (by linarith)
      subst hwh
      rw [Prod.mk.injEq]
      exact ⟨mul_div_cancel_left₀ 512 (ne_of_gt hw),
        (mul_div_cancel_left₀ 512 (ne_of_gt hw)).symm⟩
  · constructor
    · intro hEq
      rw [Prod.mk.injEq] at hEq
      exact absurd hEq.2 (ne_of_lt h3)
    · intro hOr
      rcases hOr with hle | hle
      · exact absurd (le_trans hle (not_lt.mp h4)) (not_le.mpr h3)
      · exact absurd hle (by linarith)
  · exact absurd h5 (by linarith [not_lt.mp h1, not_lt.mp h3])
  · exact ⟨fun _ => Or.inr (not_lt.mp h3), fun _ => rfl⟩

/-- Witness for C2 at a concrete 800x600 landscape image, where the two
pipelines agree on the dimensions while the qualities still differ. -/
theorem C2_witness :
    (resizeImageDims 512 800 600 = resizeAndCompressDims 800 600
        ↔ ((600 : ℚ) ≤ 800 ∨ (600 : ℚ) ≤ 512))
    ∧ (resizeImage 800 600 512).mime = (resizeAndCompressImage 800 600).mime
    ∧ (resizeImage 800 600 512).quality = 9/10
    ∧ (resizeAndCompressImage 800 600).quality = 8/10 :=
  C2_amended 800 600 (by norm_num) (by norm_num)

lemma Json.isNull_eq_null (j : Json) (h : j.isNull = true) : j = Json.null := by
  cases j <;> first | rfl | simp [Json.isNull] at h

lemma analyzerHandleParsed_result (s : AnalyzerState) (j : Json)
    (hres : s.result = none) :
    (analyzerHandleParsed s j).result.isSome = true ↔
      (∃ d, d ≠ "" ∧ jsonField j "disease" = some (Json.str d))
        ∧ isNumberOpt (jsonField j "confidence") = true := by
  unfold analyzerHandleParsed
  by_cases hN : j.isNull = true
  · rw [if_pos hN]
    constructor
    · intro hcontra
      simp [hres] at hcontra
    · rintro ⟨⟨d, hd, hEq⟩, -⟩
      rw [Json.isNull_eq_null j hN] at hEq
      simp [jsonField] at hEq
  rw [if_neg hN]
  by_cases hB : (truthyOpt (jsonField j "disease")
      && isNumberOpt (jsonField j "confidence")) = true
  · rw [if_pos hB]
    simp only [Bool.and_eq_true] at hB
    obtain ⟨hT, hC⟩ := hB
    cases hD : jsonField j "disease" with
    | none => rw [hD] at hT; simp [truthyOpt] at hT
    | some jd =>
      cases jd with
      | str d =>
        have hd : d ≠ "" := by
          rw [hD] at hT
          simpa [truthyOpt, Json.truthy] using hT
        simp only [analyzerApplyDisease, Option.isSome_some, true_iff]
        exact ⟨⟨d, hd, rfl⟩, hC⟩
      | null =>
        rw [hD] at hT; simp [truthyOpt, Json.truthy] at hT
      | bool b =>
        simp only [analyzerApplyDisease]
        constructor
        · intro hcontra
          simp [hres] at hcontra
        · rintro ⟨⟨d, hd, hEq⟩, -⟩
          simp at hEq
      | num q =>
        simp only [analyzerApplyDisease]
        constructor
        · intro hcontra
          simp [hres] at hcontra
        · rintro ⟨⟨d, hd, hEq⟩, -⟩
          simp at hEq
      | arr l =>
        simp only [analyzerApplyDisease]
        constructor
        · intro hcontra
          simp [hres] at hcontra
        · rintro ⟨⟨d, hd, hEq⟩, -⟩
          simp at hEq
      | obj l =>
        simp only [analyzerApplyDisease]
        constructor
        · intro hcontra
          simp [hres] at hcontra
        · rintro ⟨⟨d, hd, hEq⟩, -⟩
          simp at hEq
  · rw [if_neg hB]
    constructor
    · intro hcontra
      simp [hres] at hcontra
    · rintro ⟨⟨d, hd, hEq⟩, hC⟩
      refine absurd ?_ hB
      rw [hEq]
      simp [truthyOpt, Json.truthy, hd, hC]

lemma analyzerApplyDisease_error (s : AnalyzerState) (j : Json) (o : Option Json) :
    (analyzerApplyDisease s j o).error = some diseaseReplaceTypeError
      ∨ (analyzerApplyDisease s j o).error = s.error := by
  unfold analyzerApplyDisease
  split
  · exact Or.inr rfl
  · exact Or.inl rfl

lemma analyzerHandleParsed_error (s : AnalyzerState) (j : Json) (herr : s.error = none)
    (hN : j.isNull = false) :
    (analyzerHandleParsed s j).error = some invalidFormatMessage ↔
      ¬(truthyOpt (jsonField j "disease") = true
        ∧ isNumberOpt (jsonField j "confidence") = true) := by
  unfold analyzerHandleParsed
  rw [if_neg (by simp [hN])]
  by_cases hB : (truthyOpt (jsonField j "disease")
      && isNumberOpt (jsonField j "confidence")) = true
  · rw [if_pos hB]
    simp only [Bool.and_eq_true] at hB
    constructor
    · intro hx
      exfalso
      rcases analyzerApplyDisease_error s j (jsonField j "disease") with he | he
      · rw [he] at hx
        exact absurd (Option.some.inj hx) (by decide)
      · rw [he, herr] at hx
        exact Option.noConfusion hx
    · intro hn
      exact absurd hB hn
  · rw [if_neg hB]
    constructor
    · intro _ hand
      exact hB (by simp [hand.1, hand.2])
    · intro _
      rfl

lemma groveHandleParsed_result (s : GroveState) (j : Json) (hres : s.result = none) :
    (groveHandleParsed s j).result.isSome = true ↔
      (∃ d, d ≠ "" ∧ jsonField j "disease" = some (Json.str d))
        ∧ isNumberOpt (jsonField j "confidence") = true
        ∧ truthyOpt (jsonField j "description") = true := by
  unfold groveHandleParsed
  by_cases hN : j.isNull = true
  · rw [if_pos hN]
    constructor
    · intro hcontra
      simp [hres] at hcontra
    · rintro ⟨⟨d, hd, hEq⟩, -⟩
      rw [Json.isNull_eq_null j hN] at hEq
      simp [jsonField] at hEq
  rw [if_neg hN]
  by_cases hB : (truthyOpt (jsonField j "disease")
      && isNumberOpt (jsonField j "confidence")
      && truthyOpt (jsonField j "description")) = true
  · rw [if_pos hB]
    simp only [Bool.and_eq_true] at hB
    obtain ⟨⟨hT, hC⟩, hDesc⟩ := hB
    cases hD : jsonField j "disease" with
    | none => rw [hD] at hT; simp [truthyOpt] at hT
    | some jd =>
      cases jd with
      | str d =>
        have hd : d ≠ "" := by
          rw [hD] at hT
          simpa [truthyOpt, Json.truthy] using hT
        simp only [groveApplyDisease, Option.isSome_some, true_iff]
        exact ⟨⟨d, hd, rfl⟩, hC, hDesc⟩
      | null =>
        rw [hD] at hT; simp [truthyOpt, Json.truthy] at hT
      | bool b =>
        simp only [groveApplyDisease]
        constructor
        · intro hcontra
          simp [hres] at hcontra
        · rintro ⟨⟨d, hd, hEq⟩, -⟩
          simp at hEq
      | num q =>
        simp only [groveApplyDisease]
        constructor
        · intro hcontra
          simp [hres] at hcontra
        · rintro ⟨⟨d, hd, hEq⟩, -⟩
          simp at hEq
      | arr l =>
        simp only [groveApplyDisease]
        constructor
        · intro hcontra
          simp [hres] at hcontra
        · rintro ⟨⟨d, hd, hEq⟩, -⟩
          simp at hEq
      | obj l =>
        simp only [groveApplyDisease]
        constructor
        · intro hcontra
          simp [hres] at hcontra
        · rintro ⟨⟨d, hd, hEq⟩, -⟩
          simp at hEq
  · rw [if_neg hB]
    constructor
    · intro hcontra
      simp [hres] at hcontra
    · rintro ⟨⟨d, hd, hEq⟩, hC, hDesc⟩
      refine absurd ?_ hB
      rw [hEq, hC, hDesc]
      simp [truthyOpt, Json.truthy, hd]

lemma groveApplyDisease_error (s : GroveState) (j : Json) (o : Option Json) :
    (groveApplyDisease s j o).error = some diseaseReplaceTypeError
      ∨ (groveApplyDisease s j o).error = s.error := by
  unfold groveApplyDisease
  split
  · exact Or.inr rfl
  · exact Or.inl rfl

lemma groveHandleParsed_error (s : GroveState) (j : Json) (herr : s.error = none)
    (hN : j.isNull = false) :
    (groveHandleParsed s j).error = some invalidFormatMessage ↔
      ¬(truthyOpt (jsonField j "disease") = true
        ∧ isNumberOpt (jsonField j "confidence") = true
        ∧ truthyOpt (jsonField j "description") = true) := by
  unfold groveHandleParsed
  rw [if_neg (by simp [hN])]
  by_cases hB : (truthyOpt (jsonField j "disease")
      && isNumberOpt (jsonField j "confidence")
      && truthyOpt (jsonField j "description")) = true
  · rw [if_pos hB]
    simp only [Bool.and_eq_true] at hB
    constructor
    · intro hx
      exfalso
      rcases groveApplyDisease_error s j (jsonField j "disease") with he | he
      · rw [he] at hx
        exact absurd (Option.some.inj hx) (by decide)
      · rw [he, herr] at hx
        exact Option.noConfusion hx
    · intro hn
      exact absurd ⟨hB.1.1, hB.1.2, hB.2⟩ hn
  · rw [if_neg hB]
    constructor
    · intro _ hand
      exact hB (by simp [hand.1, hand.2.1, hand.2.2])
    · intro _
      rfl

/-- Counterexample for claim C5: a body whose disease field IS a string (the
empty string) and whose confidence IS a number is nevertheless rejected with
the invalid-format error by both components (the code tests truthiness, not
type); and a body accepted by the analyzer (string disease, number confidence,
no description) is rejected by the landing page, so the acceptance condition is
not the same in both components. -/
theorem C5_counterexample :
    jsonField (Json.obj [("disease", Json.str ""), ("confidence", Json.num (1/2))])
        "disease" = some (Json.str "")
    ∧ jsonField (Json.obj [("disease", Json.str ""), ("confidence", Json.num (1/2))])
        "confidence" = some (Json.num (1/2))
    ∧ (analyzerAnalyze analyzerStart (ApiOutcome.response 200 (BodyResult.parsed
        (Json.obj [("disease", Json.str ""), ("confidence", Json.num (1/2))])))).error
        = some invalidFormatMessage
    ∧ (analyzerAnalyze analyzerStart (ApiOutcome.response 200 (BodyResult.parsed
        (Json.obj [("disease", Json.str ""), ("confidence", Json.num (1/2))])))).result
        = none
    ∧ (analyzerAnalyze analyzerStart (ApiOutcome.response 200 (BodyResult.parsed
        (Json.obj [("disease", Json.str "Apple_scab"),
          ("confidence", Json.num (1/2))])))).result.isSome = true
    ∧ (groveAnalyze groveStart ResizeOutcome.ok (ApiOutcome.response 200 (BodyResult.parsed
        (Json.obj [("disease", Json.str "Apple_scab"),
          ("confidence", Json.num (1/2))])))).result = none
    ∧ (groveAnalyze groveStart ResizeOutcome.ok (ApiOutcome.response 200 (BodyResult.parsed
        (Json.obj [("disease", Json.str "Apple_scab"),
          ("confidence", Json.num (1/2))])))).error = some invalidFormatMessage :=
  ⟨rfl, rfl, rfl, rfl, rfl, rfl, rfl⟩

/-- Claim C5 as amended: for an HTTP-OK parsed body, the analyzer stores a
result exactly when the disease field is a nonempty string and the confidence
field is a number; for every non-null body it produces the invalid-format
error exactly when the disease field is falsy (missing, empty string, 0,
false, null) or the confidence is not a number; the landing page additionally
requires a truthy description field in both conditions, so the acceptance
conditions of the two components differ; and a body that is JSON null raises a
`TypeError` on the `data.disease` access whose message is stored instead of
the invalid-format error. -/
theorem C5_amended (st : AnalyzerState) (gs : GroveState) (j : Json) :
    ((analyzerAnalyze st (ApiOutcome.response 200 (BodyResult.parsed j))).result.isSome
        = true
      ↔ (∃ d, d ≠ "" ∧ jsonField j "disease" = some (Json.str d))
          ∧ isNumberOpt (jsonField j "confidence") = true)
    ∧ (j.isNull = false →
      ((analyzerAnalyze st (ApiOutcome.response 200 (BodyResult.parsed j))).error
          = some invalidFormatMessage
      ↔ ¬(truthyOpt (jsonField j "disease") = true
          ∧ isNumberOpt (jsonField j "confidence") = true)))
    ∧ ((groveAnalyze gs ResizeOutcome.ok
          (ApiOutcome.response 200 (BodyResult.parsed j))).result.isSome = true
      ↔ (∃ d, d ≠ "" ∧ jsonField j "disease" = some (Json.str d))
          ∧ isNumberOpt (jsonField j "confidence") = true
          ∧ truthyOpt (jsonField j "description") = true)
    ∧ (j.isNull = false →
      ((groveAnalyze gs ResizeOutcome.ok
          (ApiOutcome.response 200 (BodyResult.parsed j))).error
          = some invalidFormatMessage
      ↔ ¬(truthyOpt (jsonField j "disease") = true
          ∧ isNumberOpt (jsonField j "confidence") = true
          ∧ truthyOpt (jsonField j "description") = true)))
    ∧ (analyzerAnalyze st
        (ApiOutcome.response 200 (BodyResult.parsed Json.null))).error
        = some nullAccessTypeError
    ∧ (analyzerAnalyze st
        (ApiOutcome.response 200 (BodyResult.parsed Json.null))).result = none
    ∧ (groveAnalyze gs ResizeOutcome.ok
        (ApiOutcome.response 200 (BodyResult.parsed Json.null))).error
        = some nullAccessTypeError
    ∧ (groveAnalyze gs ResizeOutcome.ok
        (ApiOutcome.response 200 (BodyResult.parsed Json.null))).result = none := by
  refine ⟨?_, ?_, ?_, ?_, rfl, rfl, rfl, rfl⟩
  · show (analyzerHandleParsed (analyzerAnalyzeEntry st) j).result.isSome = true ↔ _
    exact analyzerHandleParsed_result (analyzerAnalyzeEntry st) j rfl
  · intro hN
    show (analyzerHandleParsed (analyzerAnalyzeEntry st) j).error
        = some invalidFormatMessage ↔ _
    exact analyzerHandleParsed_error (analyzerAnalyzeEntry st) j rfl hN
  · show (groveHandleParsed (groveAnalyzeEntry gs) j).result.isSome = true ↔ _
    exact groveHandleParsed_result (groveAnalyzeEntry gs) j rfl
  · intro hN
    show (groveHandleParsed (groveAnalyzeEntry gs) j).error
        = some invalidFormatMessage ↔ _
    exact groveHandleParsed_error (groveAnalyzeEntry gs) j rfl hN

/-- Witness for C5 at a concrete body with a nonempty disease string, numeric
confidence and truthy description: accepted by the analyzer. -/
theorem C5_witness :
    (analyzerAnalyze analyzerStart (ApiOutcome.response 200 (BodyResult.parsed
        (Json.obj [("disease", Json.str "Tomato___Late_blight"),
          ("confidence", Json.num (3/4)),
          ("description", Json.str "x")])))).result.isSome = true :=
  (C5_amended analyzerStart groveStart
      (Json.obj [("disease", Json.str "Tomato___Late_blight"),
        ("confidence", Json.num (3/4)),
        ("description", Json.str "x")])).1.mpr
    ⟨⟨"Tomato___Late_blight", by decide, rfl⟩, rfl⟩

/-- Claim C6: whenever either component stores a result for an accepted API
response, the stored disease equals the API disease string with each maximal
run of underscores replaced by a single space and then trimmed, and the stored
confidence equals the API confidence multiplied by 100. -/
theorem C6_result_transformation (st : AnalyzerState) (gs : GroveState) (j : Json)
    (r rg : AnalysisResult) :
    ((analyzerAnalyze st (ApiOutcome.response 200 (BodyResult.parsed j))).result
        = some r →
      ∃ d c, jsonField j "disease" = some (Json.str d)
        ∧ jsonField j "confidence" = some (Json.num c)
        ∧ r.disease = renderDisease d ∧ r.confidence = c * 100)
    ∧ ((groveAnalyze gs ResizeOutcome.ok
          (ApiOutcome.response 200 (BodyResult.parsed j))).result = some rg →
      ∃ d c, jsonField j "disease" = some (Json.str d)
        ∧ jsonField j "confidence" = some (Json.num c)
        ∧ rg.disease = renderDisease d ∧ rg.confidence = c * 100) := by
  constructor
  · intro h
    have h' : (analyzerHandleParsed (analyzerAnalyzeEntry st) j).result = some r := h
    unfold analyzerHandleParsed at h'
    by_cases hN : j.isNull = true
    · rw [if_pos hN] at h'
      exact Option.noConfusion h'
    rw [if_neg hN] at h'
    by_cases hB : (truthyOpt (jsonField j "disease")
        && isNumberOpt (jsonField j "confidence")) = true
    · rw [if_pos hB] at h'
      simp only [Bool.and_eq_true] at hB
      obtain ⟨hT, hC⟩ := hB
      cases hD : jsonField j "disease" with
      | none => rw [hD] at hT; simp [truthyOpt] at hT
      | some jd =>
        rw [hD] at h'
        cases jd with
        | str d =>
          simp only [analyzerApplyDisease] at h'
          have hr : r = analyzerResultOf j d := (Option.some.inj h').symm
          cases hc : jsonField j "confidence" with
          | none => rw [hc] at hC; simp [isNumberOpt] at hC
          | some jc =>
            cases jc with
            | num c =>
              refine ⟨d, c, rfl, rfl, ?_, ?_⟩
              · rw [hr]
                exact rfl
              · rw [hr]
                show numOf (jsonField j "confidence") * 100 = c * 100
                rw [hc]
                exact rfl
            | null => rw [hc] at hC; simp [isNumberOpt] at hC
            | bool b => rw [hc] at hC; simp [isNumberOpt] at hC
            | str d2 => rw [hc] at hC; simp [isNumberOpt] at hC
            | arr l => rw [hc] at hC; simp [isNumberOpt] at hC
            | obj l => rw [hc] at hC; simp [isNumberOpt] at hC
        | null => exact Option.noConfusion h'
        | bool b => exact Option.noConfusion h'
        | num q => exact Option.noConfusion h'
        | arr l => exact Option.noConfusion h'
        | obj l => exact Option.noConfusion h'
    · rw [if_neg hB] at h'
      exact Option.noConfusion h'
  · intro h
    have h' : (groveHandleParsed (groveAnalyzeEntry gs) j).result = some rg := h
    unfold groveHandleParsed at h'
    by_cases hN : j.isNull = true
    · rw [if_pos hN] at h'
      exact Option.noConfusion h'
    rw [if_neg hN] at h'
    by_cases hB : (truthyOpt (jsonField j "disease")
        && isNumberOpt (jsonField j "confidence")
        && truthyOpt (jsonField j "description")) = true
    · rw [if_pos hB] at h'
      simp only [Bool.and_eq_true] at hB
      obtain ⟨⟨hT, hC⟩, hDesc⟩ := hB
      cases hD : jsonField j "disease" with
      | none => rw [hD] at hT; simp [truthyOpt] at hT
      | some jd =>
        rw [hD] at h'
        cases jd with
        | str d =>
          simp only [groveApplyDisease] at h'
          have hr : rg = groveResultOf j d := (Option.some.inj h').symm
          cases hc : jsonField j "confidence" with
          | none => rw [hc] at hC; simp [isNumberOpt] at hC
          | some jc =>
            cases jc with
            | num c =>
              refine ⟨d, c, rfl, rfl, ?_, ?_⟩
              · rw [hr]
                exact rfl
              · rw [hr]
                show numOf (jsonField j "confidence") * 100 = c * 100
                rw [hc]
                exact rfl
            | null => rw [hc] at hC; simp [isNumberOpt] at hC
            | bool b => rw [hc] at hC; simp [isNumberOpt] at hC
            | str d2 => rw [hc] at hC; simp [isNumberOpt] at hC
            | arr l => rw [hc] at hC; simp [isNumberOpt] at hC
            | obj l => rw [hc] at hC; simp [isNumberOpt] at hC
        | null => exact Option.noConfusion h'
        | bool b => exact Option.noConfusion h'
        | num q => exact Option.noConfusion h'
        | arr l => exact Option.noConfusion h'
        | obj l => exact Option.noConfusion h'
    · rw [if_neg hB] at h'
      exact Option.noConfusion h'

/-- Witness for C6 at a concrete accepted response: the label
`"Apple___Black_rot"` renders with its underscore run collapsed to one space
and confidence 0.9 scaled by 100. -/
theorem C6_witness :
    ∃ d c,
      jsonField (Json.obj [("disease", Json.str "Apple___Black_rot"),
          ("confidence", Json.num (9/10))]) "disease" = some (Json.str d)
      ∧ jsonField (Json.obj [("disease", Json.str "Apple___Black_rot"),
          ("confidence", Json.num (9/10))]) "confidence" = some (Json.num c)
      ∧ (analyzerResultOf (Json.obj [("disease", Json.str "Apple___Black_rot"),
          ("confidence", Json.num (9/10))]) "Apple___Black_rot").disease
          = renderDisease d
      ∧ (analyzerResultOf (Json.obj [("disease", Json.str "Apple___Black_rot"),
          ("confidence", Json.num (9/10))]) "Apple___Black_rot").confidence = c * 100 :=
  (C6_result_transformation analyzerStart groveStart
      (Json.obj [("disease", Json.str "Apple___Black_rot"),
        ("confidence", Json.num (9/10))])
      (analyzerResultOf (Json.obj [("disease", Json.str "Apple___Black_rot"),
        ("confidence", Json.num (9/10))]) "Apple___Black_rot")
      (groveResultOf (Json.obj [("disease", Json.str "Apple___Black_rot"),
        ("confidence", Json.num (9/10))]) "Apple___Black_rot")).1 rfl

